import Mathlib

/-!
Verification of `start.py`, a static-file HTTP server wrapper.

The script defines `serve_static(port, directory)` which changes the working
directory, constructs a `socketserver.TCPServer(("", port), handler)` inside a
`with` block, prints a startup line, and runs `serve_forever()` under a
`try/except KeyboardInterrupt` that prints a shutdown line.  The `__main__`
block parses `--port` (int, default 8000) and `--directory` (str, default ".")
with argparse and calls `serve_static`.

We embed the script as a trace semantics: the environment `Env` injects the
result of each external effect (whether `os.chdir` raises, whether the
`TCPServer` constructor's bind raises, and which exception terminates the
otherwise-infinite `serve_forever` loop), and running `serve_static` yields the
list of successfully performed observable events together with an outcome
(normal return or a propagating exception).
-/

/-- A Python exception class relevant to this program.  `other n` stands for
any further exception type. -/
inductive Exc where
  | osError
  | bindError
  | keyboardInterrupt
  | other (n : Nat)
deriving DecidableEq

/-- Observable events performed by `serve_static`, in program order:
a successful `os.chdir`, a successful socket bind by the `TCPServer`
constructor (host, port), a line printed to stdout, and the server close
performed by the `with` statement on exit from its block. -/
inductive Event where
  | chdir (d : String)
  | bind (host : String) (port : Int)
  | print (s : String)
  | closeSocket
deriving DecidableEq

/-- How `serve_static` terminates: a normal return, or an exception
propagating out of it. -/
inductive Outcome where
  | normal
  | raised (e : Exc)
deriving DecidableEq

/-- Injected results of the external effects: `chdirResult`/`bindResult` are
`some e` when `os.chdir`/the `TCPServer` constructor raise `e` and `none` when
they succeed; `serveResult` is the exception that ends `serve_forever()`,
which never returns normally. -/
structure Env where
  chdirResult : Option Exc
  bindResult : Option Exc
  serveResult : Exc
deriving DecidableEq

/-- The events performed and the final outcome of one run of `serve_static`. -/
structure RunResult where
  trace : List Event
  outcome : Outcome
deriving DecidableEq

/-- The startup line `f"Serving static files from '{directory}' at http://localhost:{port}"`. -/
def startupMsg (port : Int) (directory : String) : String :=
  "Serving static files from \x27" ++ directory ++ "\x27 at http://localhost:" ++ toString port

/-- The shutdown line printed when `serve_forever` is interrupted. -/
def shutdownMsg : String := "\nShutting down the server."

/-- Embedding of `serve_static(port, directory)` (src/start.py lines 7-18):
`os.chdir(directory)`; then `with socketserver.TCPServer(("", port), handler)`
(whose constructor binds the socket, and which closes the server on exit from
the block even when an exception escapes); print the startup line; then
`serve_forever()` under `try/except KeyboardInterrupt`, the except branch
printing the shutdown line and falling off the end of the function. -/
def serve_static (port : Int) (directory : String) (env : Env) : RunResult :=
  match env.chdirResult with
  | some e => ⟨[], .raised e⟩
  | none =>
    match env.bindResult with
    | some e => ⟨[.chdir directory], .raised e⟩
    | none =>
      let opened : List Event :=
        [.chdir directory, .bind "" port, .print (startupMsg port directory)]
      match env.serveResult with
      | .keyboardInterrupt => ⟨opened ++ [.print shutdownMsg, .closeSocket], .normal⟩
      | e => ⟨opened ++ [.closeSocket], .raised e⟩

/-- The code points Python's `int()` strips as surrounding whitespace
(CPython 3.11, exhaustively enumerated over all of Unicode). -/
def pySpaceCodes : List Nat :=
  [9, 10, 11, 12, 13, 32, 133, 160, 5760, 8192, 8193, 8194, 8195, 8196, 8197,
   8198, 8199, 8200, 8201, 8202, 8232, 8233, 8239, 8287, 12288]

/-- Whether `int()` strips `c` as whitespace. -/
def pySpace (c : Char) : Bool := pySpaceCodes.contains c.toNat

/-- First code point of each run of ten Unicode decimal digits (category Nd)
that Python's `int()` accepts, Unicode 14 / CPython 3.11: each run holds the
digits 0 through 9 at consecutive code points. -/
def decDigitRunStarts : List Nat :=
  [48, 1632, 1776, 1984, 2406, 2534, 2662, 2790, 2918, 3046, 3174, 3302, 3430,
   3558, 3664, 3792, 3872, 4160, 4240, 6112, 6160, 6470, 6608, 6784, 6800,
   6992, 7088, 7232, 7248, 42528, 43216, 43264, 43472, 43504, 43600, 44016,
   65296, 66720, 68912, 69734, 69872, 69942, 70096, 70384, 70736, 70864,
   71248, 71360, 71472, 71904, 72016, 72784, 73040, 73120, 92768, 92864,
   93008, 120782, 120792, 120802, 120812, 120822, 123200, 123632, 125264,
   130032]

/-- The decimal value of a Unicode decimal digit, `none` for any other
character. -/
def decDigitVal? (c : Char) : Option Nat :=
  (decDigitRunStarts.find? (fun z => z ≤ c.toNat && c.toNat < z + 10)).map
    (fun z => c.toNat - z)

/-- Whether `c` is a Unicode decimal digit. -/
def isDecDigit (c : Char) : Bool := (decDigitVal? c).isSome

/-- Digit tail of `int()`: after the first digit, single underscores may
separate digits; a doubled, trailing, or misplaced underscore fails. -/
def pyDigits? : List Char → Nat → Option Nat
  | [], acc => some acc
  | '_' :: c :: cs, acc =>
    match decDigitVal? c with
    | some v => pyDigits? cs (acc * 10 + v)
    | none => none
  | c :: cs, acc =>
    match decDigitVal? c with
    | some v => pyDigits? cs (acc * 10 + v)
    | none => none

/-- Embedding of Python's `int(str)` in base 10, the conversion argparse
applies for `type=int`: strip surrounding whitespace, an optional single
sign, then one or more Unicode decimal digits with single underscores
allowed between digits. -/
def pyInt? (s : String) : Option Int :=
  let t := ((s.data.dropWhile pySpace).reverse.dropWhile pySpace).reverse
  let core : List Char → Option Nat := fun cs =>
    match cs with
    | c :: rest =>
      match decDigitVal? c with
      | some v => pyDigits? rest v
      | none => none
    | [] => none
  match t with
  | '-' :: cs => (core cs).map (fun n => -(n : Int))
  | '+' :: cs => (core cs).map (fun n => (n : Int))
  | cs => (core cs).map (fun n => (n : Int))

/-- The options this script registers with argparse. -/
inductive OptName where
  | port
  | directory
  | help
deriving DecidableEq

/-- The registered option strings in registration order: argparse adds
`-h`/`--help` automatically, then the script adds `--port` and
`--directory`. -/
def optionTable : List (String × OptName) :=
  [("-h", .help), ("--help", .help), ("--port", .port), ("--directory", .directory)]

/-- An exact match against the registered option strings. -/
def exactOpt? (s : String) : Option OptName :=
  (optionTable.find? (fun t => t.1 == s)).map (fun t => t.2)

/-- Split a token at its first `=`, as argparse does for `--opt=value`. -/
def splitEq? (s : String) : Option (String × String) :=
  match s.data.span (fun c => c != '=') with
  | (a, '=' :: b) => some (⟨a⟩, ⟨b⟩)
  | _ => none

/-- argparse's `_get_option_tuples` for a token starting with two dashes:
the part before any `=` must be a prefix of a registered option string
(`allow_abbrev` is on by default). -/
def doubleDashTuples (s : String) : List (OptName × Option String) :=
  let pre : List Char × Option String :=
    match splitEq? s with
    | some (o, v) => (o.data, some v)
    | none => (s.data, none)
  optionTable.filterMap
    (fun t => if pre.1.isPrefixOf t.1.data then some (t.2, pre.2) else none)

/-- argparse's `_get_option_tuples` for a single-dash token: `-h` may be
concatenated with an (ignored) explicit argument, or the whole token may be
a prefix of a registered option string. -/
def singleDashTuples (s : String) : List (OptName × Option String) :=
  (match s.data with
   | '-' :: 'h' :: c :: cs => [(OptName.help, some (⟨c :: cs⟩ : String))]
   | _ => []) ++
  optionTable.filterMap
    (fun t => if s.data.isPrefixOf t.1.data
              then some (t.2, (none : Option String)) else none)

/-- argparse's negative-number pattern `-\d+` or `-\d*.\d+` (with `\d` a
Unicode decimal digit): such a token counts as a positional value because
none of this parser's options look like negative numbers. -/
def isNegNumber (s : String) : Bool :=
  match s.data with
  | '-' :: cs =>
    (!cs.isEmpty && cs.all isDecDigit) ||
      (match cs.span (fun c => c != '.') with
       | (a, '.' :: b) => a.all isDecDigit && !b.isEmpty && b.all isDecDigit
       | _ => false)
  | _ => false

/-- How argparse classifies one token during its initial scan. -/
inductive TokClass where
  | value
  | known (o : OptName) (ex : Option String)
  | unknownOpt
  | ambiguousOpt
deriving DecidableEq

/-- Embedding of argparse's `_parse_optional` for this parser: empty and
non-dash tokens, a lone `-`, negative numbers, and dash tokens containing a
space are positional values; exact option strings, `--opt=value` forms, and
unambiguous abbreviations are options; a dash token matching several option
strings is ambiguous (an immediate usage error); any other dash token is an
unknown option. -/
def classifyTok (s : String) : TokClass :=
  match s.data with
  | [] => .value
  | c :: cs =>
    if c != '-' then .value
    else
      match exactOpt? s with
      | some o => .known o none
      | none =>
        if cs.isEmpty then .value
        else
          match (match splitEq? s with
                 | some (o, v) =>
                   (exactOpt? o).map (fun oo => TokClass.known oo (some v))
                 | none => none) with
          | some t => t
          | none =>
            match (match cs with
                   | '-' :: _ => doubleDashTuples s
                   | _ => singleDashTuples s) with
            | [t] => .known t.1 t.2
            | _ :: _ :: _ => .ambiguousOpt
            | [] =>
              if isNegNumber s then .value
              else if s.data.contains ' ' then .value
              else .unknownOpt

/-- Whether the initial scan hits an ambiguous abbreviation; tokens after a
`--` separator are positionals and are never classified. -/
def hasAmbiguous : List String → Bool
  | [] => false
  | t :: rest =>
    if t = "--" then false
    else
      (match classifyTok t with
       | TokClass.ambiguousOpt => true
       | _ => false) || hasAmbiguous rest

/-- The result of `parser.parse_args(argv)`: a configuration, a help exit
(status 0), or a usage error (status 2). -/
inductive ArgsResult where
  | ok (port : Int) (directory : String)
  | helpExit
  | usage
deriving DecidableEq

/-- argparse's left-to-right consumption for this parser (no positional
parameters are declared): an unconsumed value or unknown option becomes an
extra, reported as "unrecognized arguments" (usage error) at the end; `--`
turns itself and everything after it into extras; `--help` exits
immediately; `--port`/`--directory` take the next token when it classifies
as a value (else "expected one argument"), or their `=`-attached value, with
`int()` applied to the port value; a later occurrence overrides an earlier
one. -/
def consumeArgs : List String → Int → String → Bool → ArgsResult
  | [], p, d, ex => if ex then .usage else .ok p d
  | t :: rest, p, d, ex =>
    if t = "--" then .usage
    else
      match classifyTok t with
      | .value => consumeArgs rest p d true
      | .unknownOpt => consumeArgs rest p d true
      | .ambiguousOpt => .usage
      | .known .help none => .helpExit
      | .known .help (some _) => .usage
      | .known .port (some v) =>
        match pyInt? v with
        | some n => consumeArgs rest n d ex
        | none => .usage
      | .known .directory (some v) => consumeArgs rest p v ex
      | .known .port none =>
        match rest with
        | [] => .usage
        | v :: rest2 =>
          if classifyTok v = .value then
            match pyInt? v with
            | some n => consumeArgs rest2 n d ex
            | none => .usage
          else .usage
      | .known .directory none =>
        match rest with
        | [] => .usage
        | v :: rest2 =>
          if classifyTok v = .value then consumeArgs rest2 p v ex
          else .usage

/-- Embedding of `parser.parse_args(argv)` (src/start.py lines 21-32) for
this parser configuration, as CPython 3.11's argparse executes it: the scan
classifies every token (erroring on ambiguous abbreviations), then options
are consumed left to right starting from the defaults (8000, "."). -/
def parse_args (argv : List String) : ArgsResult :=
  if hasAmbiguous argv then .usage else consumeArgs argv 8000 "." false

/-- What a whole process run produced: `serve_static` ran with the parsed
configuration, or argparse printed help and exited 0, or argparse rejected
the command line and exited with its usage-error status 2 before
`serve_static` was called. -/
inductive MainResult where
  | served (r : RunResult)
  | helpShown
  | usageError (code : Nat)
deriving DecidableEq

/-- Embedding of the `__main__` block (src/start.py lines 20-33): parse the
command line, then call `serve_static(args.port, args.directory)`.  The only
inputs are the command line and the injected effect results: no environment
variable or configuration file is consulted. -/
def main_program (argv : List String) (env : Env) : MainResult :=
  match parse_args argv with
  | .ok p d => .served (serve_static p d env)
  | .helpExit => .helpShown
  | .usage => .usageError 2

/-- The process exit status: 2 for an argparse usage error, 0 for a help
exit or a normal return from the script, 1 (CPython's status for an
unhandled exception) otherwise. -/
def processExit : MainResult → Nat
  | .usageError c => c
  | .helpShown => 0
  | .served ⟨_, .normal⟩ => 0
  | .served ⟨_, .raised _⟩ => 1

/-- The events a whole process run performed. -/
def mainTrace : MainResult → List Event
  | .served r => r.trace
  | .helpShown => []
  | .usageError _ => []

/-- Claim C1: on a run where `os.chdir` and the bind succeed, `serve_static`
first changes the working directory to `d` and only then constructs the
server, bound to host `""` (all interfaces) on port `p`: the chdir event
strictly precedes the bind event in the trace. -/
theorem C1_chdir_then_bind (p : Int) (d : String) (env : Env)
    (hc : env.chdirResult = none) (hb : env.bindResult = none) :
    (serve_static p d env).trace.take 2 = [Event.chdir d, Event.bind "" p] := by
  unfold serve_static
  rw [hc, hb]
  cases env.serveResult <;> rfl

/-- Witness for C1 at port 8000, directory ".", interrupt-terminated run. -/
theorem C1_witness :
    (serve_static 8000 "." ⟨none, none, .keyboardInterrupt⟩).trace.take 2 =
      [Event.chdir ".", Event.bind "" 8000] :=
  C1_chdir_then_bind 8000 "." ⟨none, none, .keyboardInterrupt⟩ rfl rfl

/-- Claim C2: if a KeyboardInterrupt ends the serve loop on an otherwise
successful run, `serve_static` catches it, prints the shutdown message
"\nShutting down the server.", and returns normally. -/
theorem C2_interrupt_clean_shutdown (p : Int) (d : String) (env : Env)
    (hc : env.chdirResult = none) (hb : env.bindResult = none)
    (hs : env.serveResult = .keyboardInterrupt) :
    (serve_static p d env).outcome = .normal ∧
      Event.print shutdownMsg ∈ (serve_static p d env).trace := by
  unfold serve_static
  rw [hc, hb, hs]
  exact ⟨rfl, by simp⟩

/-- Witness for C2 at port 8000, directory ".". -/
theorem C2_witness :
    (serve_static 8000 "." ⟨none, none, .keyboardInterrupt⟩).outcome = .normal ∧
      Event.print shutdownMsg ∈ (serve_static 8000 "." ⟨none, none, .keyboardInterrupt⟩).trace :=
  C2_interrupt_clean_shutdown 8000 "." ⟨none, none, .keyboardInterrupt⟩ rfl rfl rfl

/-- Claim C3: when `os.chdir` raises `e`, `serve_static` fails with `e`
propagating and no bind event ever occurs: no TCP server object is created. -/
theorem C3_chdir_failure_no_bind (p : Int) (d : String) (env : Env) (e : Exc)
    (hc : env.chdirResult = some e) :
    (serve_static p d env).outcome = .raised e ∧
      ∀ h q, Event.bind h q ∉ (serve_static p d env).trace := by
  unfold serve_static
  rw [hc]
  exact ⟨rfl, by simp⟩

/-- Witness for C3: chdir raising an OSError at port 8000, directory "/nope". -/
theorem C3_witness :
    (serve_static 8000 "/nope" ⟨some .osError, none, .keyboardInterrupt⟩).outcome =
        .raised .osError ∧
      ∀ h q, Event.bind h q ∉
        (serve_static 8000 "/nope" ⟨some .osError, none, .keyboardInterrupt⟩).trace :=
  C3_chdir_failure_no_bind 8000 "/nope" ⟨some .osError, none, .keyboardInterrupt⟩ .osError rfl

/-- Claim C4: when the `TCPServer` constructor raises a bind error `e` (chdir
having succeeded), no bind event occurs, the error propagates out of
`serve_static` uncaught (the outcome is `raised e`, not normal), and the
process exit status is nonzero. -/
theorem C4_bind_failure_propagates (p : Int) (d : String) (env : Env) (e : Exc)
    (hc : env.chdirResult = none) (hb : env.bindResult = some e) :
    (serve_static p d env).outcome = .raised e ∧
      (∀ h q, Event.bind h q ∉ (serve_static p d env).trace) ∧
      processExit (.served (serve_static p d env)) ≠ 0 := by
  unfold serve_static
  rw [hc, hb]
  exact ⟨rfl, by simp, by simp [processExit]⟩

/-- Witness for C4: the bind raising a bind error at port 80, directory ".". -/
theorem C4_witness :
    (serve_static 80 "." ⟨none, some .bindError, .keyboardInterrupt⟩).outcome =
        .raised .bindError ∧
      (∀ h q, Event.bind h q ∉
        (serve_static 80 "." ⟨none, some .bindError, .keyboardInterrupt⟩).trace) ∧
      processExit (.served (serve_static 80 "." ⟨none, some .bindError, .keyboardInterrupt⟩)) ≠ 0 :=
  C4_bind_failure_propagates 80 "." ⟨none, some .bindError, .keyboardInterrupt⟩ .bindError rfl rfl

/-- Claim C5: the command line is the only configuration source: an empty
command line yields the defaults (8000, "."), and whenever parsing succeeds
with (p, d), the program runs exactly `serve_static p d`. -/
theorem C5_cli_plumbing :
    parse_args [] = .ok 8000 "." ∧
      ∀ (argv : List String) (env : Env) (p : Int) (d : String),
        parse_args argv = .ok p d →
          main_program argv env = .served (serve_static p d env) := by
  refine ⟨rfl, fun argv env p d hp => ?_⟩
  unfold main_program
  rw [hp]

/-- Witness for C5: `--port 9090` parses and drives `serve_static 9090 "."`. -/
theorem C5_witness :
    main_program ["--port", "9090"] ⟨none, none, .keyboardInterrupt⟩ =
      .served (serve_static 9090 "." ⟨none, none, .keyboardInterrupt⟩) :=
  C5_cli_plumbing.2 ["--port", "9090"] ⟨none, none, .keyboardInterrupt⟩ 9090 "." (by decide)

/-- Claim C6: KeyboardInterrupt during `serve_forever` is the only exception
caught: the run ends normally exactly when chdir and bind succeed and the
serve loop is ended by KeyboardInterrupt; an exception from chdir, from the
bind, or any non-KeyboardInterrupt exception from the serve loop propagates
out of `serve_static`. -/
theorem C6_only_interrupt_caught (p : Int) (d : String) (env : Env) :
    ((serve_static p d env).outcome = .normal ↔
        env.chdirResult = none ∧ env.bindResult = none ∧
          env.serveResult = .keyboardInterrupt) ∧
      (∀ e, env.chdirResult = some e → (serve_static p d env).outcome = .raised e) ∧
      (∀ e, env.chdirResult = none → env.bindResult = some e →
        (serve_static p d env).outcome = .raised e) ∧
      (env.chdirResult = none → env.bindResult = none →
        env.serveResult ≠ .keyboardInterrupt →
        (serve_static p d env).outcome = .raised env.serveResult) := by
  obtain ⟨c, b, s⟩ := env
  cases c <;> cases b <;> cases s <;>
    simp [serve_static]

/-- Witness for C6: an OSError from the serve loop propagates. -/
theorem C6_witness :
    (serve_static 8000 "." ⟨none, none, .osError⟩).outcome = .raised .osError :=
  (C6_only_interrupt_caught 8000 "." ⟨none, none, .osError⟩).2.2.2 rfl rfl (by decide)

/-- Claim C7: an interrupted run terminates normally with the full trace
chdir, bind, startup print, shutdown print, server close: the `with`
statement closes the listening socket after the shutdown notice and before
`serve_static` returns, leaving nothing dangling. -/
theorem C7_interrupt_closes_socket (p : Int) (d : String) (env : Env)
    (hc : env.chdirResult = none) (hb : env.bindResult = none)
    (hs : env.serveResult = .keyboardInterrupt) :
    (serve_static p d env).outcome = .normal ∧
      (serve_static p d env).trace =
        [.chdir d, .bind "" p, .print (startupMsg p d),
          .print shutdownMsg, .closeSocket] := by
  unfold serve_static
  rw [hc, hb, hs]
  exact ⟨rfl, rfl⟩

/-- Witness for C7 at port 8000, directory ".". -/
theorem C7_witness :
    (serve_static 8000 "." ⟨none, none, .keyboardInterrupt⟩).outcome = .normal ∧
      (serve_static 8000 "." ⟨none, none, .keyboardInterrupt⟩).trace =
        [.chdir ".", .bind "" 8000, .print (startupMsg 8000 "."),
          .print shutdownMsg, .closeSocket] :=
  C7_interrupt_closes_socket 8000 "." ⟨none, none, .keyboardInterrupt⟩ rfl rfl rfl

/-- Claim C8: the configuration pair is never mutated: on any run, every
chdir event targets the original directory `d`, every bind event uses host
`""` and the original port `p`, and every printed line is either the startup
message built from the original `(p, d)` or the shutdown message. -/
theorem C8_config_immutable (p : Int) (d : String) (env : Env) :
    (∀ d0, Event.chdir d0 ∈ (serve_static p d env).trace → d0 = d) ∧
      (∀ h q, Event.bind h q ∈ (serve_static p d env).trace → h = "" ∧ q = p) ∧
      (∀ s, Event.print s ∈ (serve_static p d env).trace →
        s = startupMsg p d ∨ s = shutdownMsg) := by
  obtain ⟨c, b, sv⟩ := env
  cases c <;> cases b <;> cases sv <;>
    simp_all [serve_static]

/-- Witness for C8: the bind event of an interrupted run on port 8000 uses
host "" and port 8000. -/
theorem C8_witness :
    Event.bind "" 8000 ∈ (serve_static 8000 "." ⟨none, none, .keyboardInterrupt⟩).trace ∧
      ("" : String) = "" ∧ (8000 : Int) = 8000 :=
  ⟨by decide,
    (C8_config_immutable 8000 "." ⟨none, none, .keyboardInterrupt⟩).2.1 "" 8000 (by decide)⟩

/-- Claim C9: when the token after `--port` is classified as its value and
`int()` cannot parse it, argument parsing fails: the process exits with the
argparse usage status 2, `serve_static` is never entered, and no event (no
chdir, no bind) occurs. -/
theorem C9_bad_port_usage_error (v : String) (rest : List String) (env : Env)
    (hcl : classifyTok v = .value) (hv : pyInt? v = none) :
    main_program ("--port" :: v :: rest) env = .usageError 2 ∧
      mainTrace (main_program ("--port" :: v :: rest) env) = [] ∧
      processExit (main_program ("--port" :: v :: rest) env) = 2 := by
  have hclass : classifyTok "--port" = TokClass.known .port none := by decide
  have hp : parse_args ("--port" :: v :: rest) = .usage := by
    unfold parse_args
    by_cases hA : hasAmbiguous ("--port" :: v :: rest)
    · simp [hA]
    · simp [hA, consumeArgs, hclass, hcl, hv]
  refine ⟨?_, ?_, ?_⟩ <;> simp [main_program, hp, mainTrace, processExit]

/-- Witness for C9: `--port abc` is rejected. -/
theorem C9_witness :
    main_program ["--port", "abc"] ⟨none, none, .keyboardInterrupt⟩ = .usageError 2 ∧
      mainTrace (main_program ["--port", "abc"] ⟨none, none, .keyboardInterrupt⟩) = [] ∧
      processExit (main_program ["--port", "abc"] ⟨none, none, .keyboardInterrupt⟩) = 2 :=
  C9_bad_port_usage_error "abc" [] ⟨none, none, .keyboardInterrupt⟩ (by decide) (by decide)

/-- Claim C10: the startup line is printed only after a successful bind: on a
run where chdir or the bind raises, no print event occurs at all, and on a
successful run the trace starts chdir, bind, startup print, so the startup
print strictly follows the bind. -/
theorem C10_startup_print_after_bind (p : Int) (d : String) (env : Env) :
    ((env.chdirResult ≠ none ∨ env.bindResult ≠ none) →
        ∀ s, Event.print s ∉ (serve_static p d env).trace) ∧
      (env.chdirResult = none → env.bindResult = none →
        (serve_static p d env).trace.take 3 =
          [Event.chdir d, Event.bind "" p, Event.print (startupMsg p d)]) := by
  obtain ⟨c, b, sv⟩ := env
  cases c <;> cases b <;> cases sv <;> simp [serve_static]

/-- Witness for C10: with a failing chdir, nothing is printed. -/
theorem C10_witness :
    Event.print (startupMsg 8000 "/nope") ∉
      (serve_static 8000 "/nope" ⟨some .osError, none, .keyboardInterrupt⟩).trace :=
  (C10_startup_print_after_bind 8000 "/nope" ⟨some .osError, none, .keyboardInterrupt⟩).1
    (Or.inl (by decide)) (startupMsg 8000 "/nope")
